import Mathlib

/-!
# Verification of `notifier/notification.go` (prometheus-webhook-dingtalk)

Shallow embedding of the notification builder, batch splitter, signer and
transport from `src/notifier/notification.go`, together with theorems that
settle the frozen claims about them.

Modelling conventions:
* Byte slices (`[]byte`) are `List Nat`; `len` is `List.length`.
* Fallible Go calls (`(T, error)` returns) are `Except String T`; the error
  strings mirror the `errors.Wrap` / `errors.Errorf` messages of the source.
* The template engine (`template.Template.ExecuteTextString`), JSON
  marshalling (`json.Marshal`), JSON decoding, HMAC-SHA256 and base64 are
  external libraries, outside this repository's notifier package; they enter
  as function parameters (`exec`, `marshal`, `decode`, `hmacSha256`,
  `base64Encode`).  All control flow, state, and data plumbing around them
  is translated from the source.
* A `WebhookMessage` is its `Alerts` field (the only field the notifier
  mutates or that varies during splitting) together with an opaque `rest`
  standing for every other field, which the code passes through untouched.
-/

/-- Byte strings (`[]byte` in Go). -/
abbrev Bytes := List Nat

/-- `const MAX_MESSAGE_LENGTH = 20000` (notification.go line 22). -/
def MAX_MESSAGE_LENGTH : Nat := 20000

/-- `models.WebhookMessage`: the `Alerts` slice plus all remaining fields,
which the notifier never touches, abstracted as `rest`. -/
structure WebhookMessage (A R : Type) where
  alerts : List A
  rest : R
  deriving Repr, DecidableEq

/-- `models.DingTalkNotificationMarkdown` (fields as used in notification.go). -/
structure DingTalkNotificationMarkdown where
  title : String
  text : String
  deriving Repr, DecidableEq

/-- `models.DingTalkNotificationAt` (fields as used in notification.go). -/
structure DingTalkNotificationAt where
  isAtAll : Bool
  atMobiles : List String
  deriving Repr, DecidableEq

/-- `models.DingTalkNotification` (fields as used in notification.go);
`markdown` and `at` are pointers in Go, hence `Option` here.  The Go field
`At` is named `atBlock` because `at` is reserved in Lean. -/
structure DingTalkNotification where
  messageType : String
  markdown : Option DingTalkNotificationMarkdown
  atBlock : Option DingTalkNotificationAt
  deriving Repr, DecidableEq

/-- Modelled from the spec: `models.DingTalkNotificationResponse` is
declared in the models package, which is not among the given sources; the
spec's response schema gives its JSON fields `errcode` (integer) and
`errmsg` (string). -/
structure DingTalkNotificationResponse where
  errcode : Int
  errmsg : String
  deriving Repr, DecidableEq

/-- A URL split into everything before the query (`base`) and its query
values.  `url.Values` is modelled as an association list of key/value
pairs; `Values.Set` replaces every pair of the key with the single new
pair (see `valuesSet`). -/
structure URL where
  base : String
  query : List (String × String)
  deriving Repr, DecidableEq

/-- `url.Values.Set k v`: drop all existing values for `k`, then add `v`
as the sole value of `k`. -/
def valuesSet (qs : List (String × String)) (k v : String) : List (String × String) :=
  qs.filter (fun p => p.1 ≠ k) ++ [(k, v)]

/-- `config.Target.Mention` (`*Mention` in Go), fields as read by
notification.go: `All`, `Mobiles`. -/
structure Mention where
  all : Bool
  mobiles : List String
  deriving Repr, DecidableEq

/-- `config.Target`, fields as read by notification.go: `URL`, `Secret`,
`Mention`. -/
structure Target where
  url : URL
  secret : String
  mention : Option Mention
  deriving Repr, DecidableEq

/-- `DingNotificationBuilder` (notification.go lines 24-29): the engine
pointer is a section parameter `exec`, so the structure keeps the resolved
template pair and the target. -/
structure DingNotificationBuilder where
  titleTpl : String
  textTpl : String
  target : Target
  deriving Repr, DecidableEq

section Notifier

variable {A R β : Type}

variable (exec : String → WebhookMessage A R → Except String String)
variable (marshal : DingTalkNotification → Except String Bytes)

/-- `renderTitle` (line 54): `r.tmpl.ExecuteTextString(r.titleTpl, data)`. -/
def renderTitle (r : DingNotificationBuilder) (m : WebhookMessage A R) :
    Except String String :=
  exec r.titleTpl m

/-- `renderText` (line 58): `r.tmpl.ExecuteTextString(r.textTpl, data)`. -/
def renderText (r : DingNotificationBuilder) (m : WebhookMessage A R) :
    Except String String :=
  exec r.textTpl m

/-- `Build` (lines 62-89): render title and text, wrap into a markdown
notification, attach the `at` block when the target has a mention. -/
def Build (r : DingNotificationBuilder) (m : WebhookMessage A R) :
    Except String DingTalkNotification :=
  match renderTitle exec r m with
  | .error e => .error e
  | .ok title =>
    match renderText exec r m with
    | .error e => .error e
    | .ok content =>
      let notification : DingTalkNotification :=
        { messageType := "markdown"
          markdown := some { title := title, text := content }
          atBlock := none }
      let notification :=
        match r.target.mention with
        | some mention =>
            { notification with
              atBlock := some { isAtAll := mention.all, atMobiles := mention.mobiles } }
        | none => notification
      .ok notification

/-- `ResolvedTmpl` (lines 132-164): same construction as `Build` (the Go
source duplicates it verbatim), then `json.Marshal`, returning the body and
its length. -/
def ResolvedTmpl (r : DingNotificationBuilder) (m : WebhookMessage A R) :
    Except String (Bytes × Nat) :=
  match renderTitle exec r m with
  | .error e => .error e
  | .ok title =>
    match renderText exec r m with
    | .error e => .error e
    | .ok content =>
      let notification : DingTalkNotification :=
        { messageType := "markdown"
          markdown := some { title := title, text := content }
          atBlock := none }
      let notification :=
        match r.target.mention with
        | some mention =>
            { notification with
              atBlock := some { isAtAll := mention.all, atMobiles := mention.mobiles } }
        | none => notification
      match marshal notification with
      | .error e => .error ("error encoding DingTalk request: " ++ e)
      | .ok body => .ok (body, body.length)

/-- The mutable state of `Buildv2`'s scan loop (lines 103-105), plus
`curAlerts`, the value most recently assigned to `m.Alerts` (line 107). -/
structure SplitState (A : Type) where
  lastIndex : Nat
  lastData : Bytes
  sendDatas : List Bytes
  curAlerts : List A
  deriving Repr, DecidableEq

/-- One iteration of `Buildv2`'s loop body (lines 106-125) at `index`:
set `m.Alerts = alerts[lastIndex:index]`, re-render, and either remember
the rendering as best fit (`l < MAX`), cut and emit the remembered best
fit, or emit the oversized candidate itself. -/
def buildv2Step (r : DingNotificationBuilder) (rest : R) (alerts : List A)
    (st : SplitState A) (index : Nat) : Except String (SplitState A) :=
  let sub := (alerts.take index).drop st.lastIndex
  match ResolvedTmpl exec marshal r { alerts := sub, rest := rest } with
  | .error e => .error e
  | .ok (data, l) =>
    if l < MAX_MESSAGE_LENGTH then
      .ok { lastIndex := st.lastIndex, lastData := data
            sendDatas := st.sendDatas, curAlerts := sub }
    else if st.lastData.length ≠ 0 then
      .ok { lastIndex := index - 1, lastData := []
            sendDatas := st.sendDatas ++ [st.lastData], curAlerts := sub }
    else
      .ok { lastIndex := index, lastData := []
            sendDatas := st.sendDatas ++ [data], curAlerts := sub }

/-- `for index := 1; index <= len(alerts); index++ { ... }` run over the
given list of indices. -/
def buildv2Loop (r : DingNotificationBuilder) (rest : R) (alerts : List A) :
    List Nat → SplitState A → Except String (SplitState A)
  | [], st => .ok st
  | index :: idxs, st =>
    match buildv2Step exec marshal r rest alerts st index with
    | .error e => .error e
    | .ok st' => buildv2Loop r rest alerts idxs st'

/-- `Buildv2` (lines 92-130), also returning the message as it stands when
the function returns (the Go code mutates `m.Alerts` in place).  Note the
final flush (lines 126-128) appends the OUTER `data` — the full-message
rendering from line 94 — because the loop-local `data` declared with `:=`
at line 108 shadows it; this embedding reproduces that faithfully. -/
def Buildv2Core (r : DingNotificationBuilder) (m : WebhookMessage A R) :
    Except String (List Bytes × WebhookMessage A R) :=
  match ResolvedTmpl exec marshal r m with
  | .error e => .error e
  | .ok (data, oriLen) =>
    if oriLen < MAX_MESSAGE_LENGTH then
      .ok ([data], m)
    else
      let alerts := m.alerts
      match buildv2Loop exec marshal r m.rest alerts (List.range' 1 alerts.length)
          { lastIndex := 0, lastData := [], sendDatas := [], curAlerts := m.alerts } with
      | .error e => .error e
      | .ok st =>
        let sendDatas :=
          if st.lastData.length ≠ 0 then st.sendDatas ++ [data] else st.sendDatas
        .ok (sendDatas, { alerts := st.curAlerts, rest := m.rest })

/-- `Buildv2`'s `[][]byte` result alone. -/
def Buildv2 (r : DingNotificationBuilder) (m : WebhookMessage A R) :
    Except String (List Bytes) :=
  (Buildv2Core exec marshal r m).map Prod.fst

end Notifier

/-- An outbound HTTP request as notification.go builds it: `http.NewRequest`
with a method and URL, then `Header.Set("Content-Type", ...)`, plus the body. -/
structure HTTPRequest where
  method : String
  url : URL
  contentType : String
  body : Bytes
  deriving Repr, DecidableEq

/-- An HTTP response as consumed by notification.go: status code and body. -/
structure HTTPResponse (β : Type) where
  statusCode : Nat
  body : β
  deriving Repr, DecidableEq

/-- The deferred cleanup of lines 198-201 / 229-232:
`io.Copy(ioutil.Discard, resp.Body); resp.Body.Close()`. -/
inductive BodyEffect where
  | drain
  | close
  deriving Repr, DecidableEq

section Transport

variable {β : Type}
variable (hmacSha256 : String → String → Bytes)
variable (base64Encode : Bytes → String)
variable (marshal : DingTalkNotification → Except String Bytes)
variable (decode : β → Except String DingTalkNotificationResponse)
variable (doRequest : HTTPRequest → Except String (HTTPResponse β))

/-- The signing block of `SendNotification` (lines 167-181): when the
target has a non-empty secret, compute `stringToSign = timestamp + "\n" +
secret`, `signature = base64(HMAC-SHA256(key=secret, stringToSign))`, and
set the `timestamp` and `sign` query parameters; otherwise leave the URL
untouched.  The wall-clock `timestamp` of line 170 is a parameter. -/
def signTargetURL (target : Target) (timestamp : String) : URL :=
  if target.secret ≠ "" then
    let stringToSign := timestamp ++ "\n" ++ target.secret
    let signature := base64Encode (hmacSha256 target.secret stringToSign)
    let qs := valuesSet (valuesSet target.url.query "timestamp" timestamp) "sign" signature
    { base := target.url.base, query := qs }
  else
    target.url

/-- The request half of `SendNotification` (lines 167-192): sign the URL,
marshal the notification, build a POST request with JSON content type. -/
def sendNotificationRequest (notification : DingTalkNotification)
    (target : Target) (timestamp : String) : Except String HTTPRequest :=
  let targetURL := signTargetURL hmacSha256 base64Encode target timestamp
  match marshal notification with
  | .error e => .error ("error encoding DingTalk request: " ++ e)
  | .ok body =>
      .ok { method := "POST", url := targetURL
            contentType := "application/json", body := body }

/-- The request half of `SendNotificationV2` (lines 216-223): POST the given
pre-serialized body to `target.URL` as configured; no signing of any kind. -/
def sendNotificationV2Request (body : Bytes) (target : Target) : HTTPRequest :=
  { method := "POST", url := target.url
    contentType := "application/json", body := body }

/-- The response half shared verbatim by `SendNotification` (lines 198-213)
and `SendNotificationV2` (lines 229-244): the deferred drain-and-close runs
on every path; a status other than 200 is `unacceptable response code %d`;
otherwise the body is JSON-decoded into a `DingTalkNotificationResponse`,
with decode failures wrapped. -/
def handleDingResponse (resp : HTTPResponse β) :
    Except String DingTalkNotificationResponse × List BodyEffect :=
  let deferred := [BodyEffect.drain, BodyEffect.close]
  if resp.statusCode ≠ 200 then
    (.error ("unacceptable response code " ++ toString resp.statusCode), deferred)
  else
    match decode resp.body with
    | .error e => (.error ("error decoding response from DingTalk: " ++ e), deferred)
    | .ok robotResp => (.ok robotResp, deferred)

/-- `SendNotification` (lines 166-214): build the signed request, perform
it, then handle the response.  The second component records the body
effects that ran (none when the request itself failed, since the `defer`
at line 198 is only reached after a successful `Do`). -/
def SendNotification (notification : DingTalkNotification) (target : Target)
    (timestamp : String) :
    Except String DingTalkNotificationResponse × List BodyEffect :=
  match sendNotificationRequest hmacSha256 base64Encode marshal notification target timestamp with
  | .error e => (.error e, [])
  | .ok httpReq =>
    match doRequest httpReq with
    | .error e => (.error ("error sending notification to DingTalk: " ++ e), [])
    | .ok resp => handleDingResponse decode resp

/-- `SendNotificationV2` (lines 216-244): POST the body unsigned, then
handle the response exactly as `SendNotification` does. -/
def SendNotificationV2 (body : Bytes) (target : Target) :
    Except String DingTalkNotificationResponse × List BodyEffect :=
  match doRequest (sendNotificationV2Request body target) with
  | .error e => (.error ("error sending notification to DingTalk: " ++ e), [])
  | .ok resp => handleDingResponse decode resp

end Transport

/-!
## A concrete instantiation of the external pieces

Used to evaluate the code on the concrete inputs that the claims name.
An alert is identified with its rendered weight in bytes (`A := Nat`,
`R := Unit`); the engine renders a message to a text of one character per
byte of total alert weight, and the marshaller emits one zero byte per
character of the markdown text, so a message's serialized length is the
sum of its alerts' weights.
-/

/-- A byte string of `n` zero bytes. -/
def zeros (n : Nat) : Bytes := List.replicate n 0

theorem zeros_length (n : Nat) : (zeros n).length = n := by
  simp [zeros]

theorem zeros_inj {a b : Nat} : zeros a = zeros b ↔ a = b := by
  constructor
  · intro h
    have h2 := congrArg List.length h
    simpa [zeros_length] using h2
  · intro h; rw [h]

/-- A text of `n` characters. -/
def demoText (n : Nat) : String := String.mk (List.replicate n 'a')

theorem demoText_length (n : Nat) : (demoText n).length = n := by
  simp [demoText, String.length]

/-- Demonstration template engine: renders any message to a text of one
character per byte of total alert weight. -/
def demoExec : String → WebhookMessage Nat Unit → Except String String :=
  fun _ m => .ok (demoText m.alerts.sum)

/-- Demonstration JSON marshaller: one zero byte per character of the
markdown text. -/
def demoMarshal : DingTalkNotification → Except String Bytes :=
  fun n =>
    .ok (zeros (match n.markdown with
      | some md => md.text.length
      | none => 0))

def demoTarget : Target :=
  { url := { base := "https://example.invalid/robot", query := [] }
    secret := "", mention := none }

def demoBuilder : DingNotificationBuilder :=
  { titleTpl := "t", textTpl := "x", target := demoTarget }

/-- Under the demonstration engine and marshaller, a message renders to a
body of one zero byte per alert-weight byte. -/
theorem demo_resolvedTmpl (alerts : List Nat) :
    ResolvedTmpl demoExec demoMarshal demoBuilder ⟨alerts, ()⟩ =
      .ok (zeros alerts.sum, alerts.sum) := by
  simp [ResolvedTmpl, renderTitle, renderText, demoExec, demoMarshal,
    demoBuilder, demoTarget, demoText_length, zeros_length]

/-!
## Characterizations of the splitter's loop, used to evaluate and reason
about `Buildv2` without unfolding it wholesale.
-/

section LoopLemmas

variable {A R : Type}
variable (exec : String → WebhookMessage A R → Except String String)
variable (marshal : DingTalkNotification → Except String Bytes)
variable (r : DingNotificationBuilder) (rest : R) (alerts : List A)

/-- The `l < MAX_MESSAGE_LENGTH` branch (lines 112-114): remember the
rendering as the best fit so far. -/
theorem buildv2Step_bestfit (st : SplitState A) (index : Nat) (data : Bytes) (l : Nat)
    (hres : ResolvedTmpl exec marshal r
      { alerts := (alerts.take index).drop st.lastIndex, rest := rest } = .ok (data, l))
    (hlt : l < MAX_MESSAGE_LENGTH) :
    buildv2Step exec marshal r rest alerts st index =
      .ok { lastIndex := st.lastIndex, lastData := data
            sendDatas := st.sendDatas
            curAlerts := (alerts.take index).drop st.lastIndex } := by
  simp only [buildv2Step]
  rw [hres]
  simp [hlt]

/-- The cut branch (lines 116-119): emit the remembered best fit and
restart one alert before the overflowing index. -/
theorem buildv2Step_cut (st : SplitState A) (index : Nat) (data : Bytes) (l : Nat)
    (hres : ResolvedTmpl exec marshal r
      { alerts := (alerts.take index).drop st.lastIndex, rest := rest } = .ok (data, l))
    (hge : ¬ l < MAX_MESSAGE_LENGTH) (hne : st.lastData.length ≠ 0) :
    buildv2Step exec marshal r rest alerts st index =
      .ok { lastIndex := index - 1, lastData := []
            sendDatas := st.sendDatas ++ [st.lastData]
            curAlerts := (alerts.take index).drop st.lastIndex } := by
  simp only [buildv2Step]
  rw [hres]
  simp [hge, hne]

/-- The no-best-fit branch (lines 120-123): emit the (oversized) candidate
rendering itself. -/
theorem buildv2Step_oversize (st : SplitState A) (index : Nat) (data : Bytes) (l : Nat)
    (hres : ResolvedTmpl exec marshal r
      { alerts := (alerts.take index).drop st.lastIndex, rest := rest } = .ok (data, l))
    (hge : ¬ l < MAX_MESSAGE_LENGTH) (hnil : st.lastData.length = 0) :
    buildv2Step exec marshal r rest alerts st index =
      .ok { lastIndex := index, lastData := []
            sendDatas := st.sendDatas ++ [data]
            curAlerts := (alerts.take index).drop st.lastIndex } := by
  simp only [buildv2Step]
  rw [hres]
  simp [hge, hnil]

theorem buildv2Loop_nil (st : SplitState A) :
    buildv2Loop exec marshal r rest alerts [] st = .ok st := rfl

theorem buildv2Loop_cons {st st' : SplitState A} {index : Nat} (idxs : List Nat)
    (h : buildv2Step exec marshal r rest alerts st index = .ok st') :
    buildv2Loop exec marshal r rest alerts (index :: idxs) st =
      buildv2Loop exec marshal r rest alerts idxs st' := by
  rw [buildv2Loop, h]

/-- The short path of `Buildv2` (lines 98-101): a full rendering under the
limit is returned as the sole batch, with the message untouched. -/
theorem Buildv2Core_short (m : WebhookMessage A R) (data : Bytes) (oriLen : Nat)
    (hres : ResolvedTmpl exec marshal r m = .ok (data, oriLen))
    (hlt : oriLen < MAX_MESSAGE_LENGTH) :
    Buildv2Core exec marshal r m = .ok ([data], m) := by
  simp only [Buildv2Core]
  rw [hres]
  simp [hlt]

/-- The splitting path of `Buildv2` (lines 102-129), given the result of
the scan loop. -/
theorem Buildv2Core_split (m : WebhookMessage A R) (data : Bytes) (oriLen : Nat)
    (st : SplitState A)
    (hres : ResolvedTmpl exec marshal r m = .ok (data, oriLen))
    (hge : ¬ oriLen < MAX_MESSAGE_LENGTH)
    (hloop : buildv2Loop exec marshal r m.rest m.alerts (List.range' 1 m.alerts.length)
      { lastIndex := 0, lastData := [], sendDatas := [], curAlerts := m.alerts } = .ok st) :
    Buildv2Core exec marshal r m =
      .ok (if st.lastData.length ≠ 0 then st.sendDatas ++ [data] else st.sendDatas,
           { alerts := st.curAlerts, rest := m.rest }) := by
  simp only [Buildv2Core]
  rw [hres]
  simp only [if_neg hge, hloop]

theorem Buildv2_of_core {m : WebhookMessage A R} {datas : List Bytes}
    {m' : WebhookMessage A R}
    (h : Buildv2Core exec marshal r m = .ok (datas, m')) :
    Buildv2 exec marshal r m = .ok datas := by
  rw [Buildv2, h]
  rfl

end LoopLemmas

section LoopInvariant

variable {A R : Type}
variable (exec : String → WebhookMessage A R → Except String String)
variable (marshal : DingTalkNotification → Except String Bytes)
variable (r : DingNotificationBuilder) (rest : R) (alerts : List A)

/-- A rendering failure inside an iteration aborts the whole split
(lines 109-111). -/
theorem buildv2Step_error (st : SplitState A) (index : Nat) (e : String)
    (hres : ResolvedTmpl exec marshal r
      { alerts := (alerts.take index).drop st.lastIndex, rest := rest } = .error e) :
    buildv2Step exec marshal r rest alerts st index = .error e := by
  simp only [buildv2Step]
  rw [hres]

/-- Whatever branch a successful loop iteration takes, it assigns
`m.Alerts = alerts[lastIndex:index]` and keeps `lastIndex` below the
next index. -/
theorem buildv2Step_ok_inv {st st' : SplitState A} {index : Nat}
    (h : buildv2Step exec marshal r rest alerts st index = .ok st') :
    st'.curAlerts = (alerts.take index).drop st.lastIndex ∧
      (st.lastIndex < index → st'.lastIndex < index + 1) := by
  cases hres : ResolvedTmpl exec marshal r
      { alerts := (alerts.take index).drop st.lastIndex, rest := rest } with
  | error e =>
    rw [buildv2Step_error exec marshal r rest alerts st index e hres] at h
    cases h
  | ok dl =>
    obtain ⟨data, l⟩ := dl
    by_cases hlt : l < MAX_MESSAGE_LENGTH
    · rw [buildv2Step_bestfit exec marshal r rest alerts st index data l hres hlt] at h
      simp only [Except.ok.injEq] at h
      subst h
      refine ⟨rfl, fun hi => ?_⟩
      show st.lastIndex < index + 1
      omega
    · by_cases hne : st.lastData.length ≠ 0
      · rw [buildv2Step_cut exec marshal r rest alerts st index data l hres hlt hne] at h
        simp only [Except.ok.injEq] at h
        subst h
        refine ⟨rfl, fun hi => ?_⟩
        show index - 1 < index + 1
        omega
      · rw [buildv2Step_oversize exec marshal r rest alerts st index data l hres hlt
          (by omega)] at h
        simp only [Except.ok.injEq] at h
        subst h
        refine ⟨rfl, fun hi => ?_⟩
        show index < index + 1
        omega

/-- After a successful run of the scan loop over indices `i, …, i+k-1`
(`k ≥ 1`), the last value assigned to `m.Alerts` is a sub-slice of the
original alerts ending at the final index. -/
theorem buildv2Loop_curAlerts_suffix :
    ∀ (k i : Nat) (st st' : SplitState A), 0 < k → st.lastIndex < i →
    buildv2Loop exec marshal r rest alerts (List.range' i k) st = .ok st' →
    ∃ j, j < i + k - 1 ∧ st'.curAlerts = (alerts.take (i + k - 1)).drop j := by
  intro k
  induction k with
  | zero => intro i st st' h0; exact absurd h0 (by norm_num)
  | succ k ih =>
    intro i st st' _ hidx hrun
    rw [show List.range' i (k + 1) = i :: List.range' (i + 1) k from rfl] at hrun
    cases hstep : buildv2Step exec marshal r rest alerts st i with
    | error e =>
      rw [buildv2Loop, hstep] at hrun
      cases hrun
    | ok st₁ =>
      rw [buildv2Loop_cons exec marshal r rest alerts (List.range' (i + 1) k) hstep] at hrun
      obtain ⟨hcur, hlast⟩ := buildv2Step_ok_inv exec marshal r rest alerts hstep
      rcases Nat.eq_zero_or_pos k with rfl | hk
      · rw [show List.range' (i + 1) 0 = [] from rfl,
          buildv2Loop_nil exec marshal r rest alerts] at hrun
        simp only [Except.ok.injEq] at hrun
        subst hrun
        exact ⟨st.lastIndex, by omega, by simpa using hcur⟩
      · obtain ⟨j, hj, hj2⟩ := ih (i + 1) st₁ st' hk (hlast hidx) hrun
        exact ⟨j, by omega, by have : i + 1 + k - 1 = i + (k + 1) - 1 := by omega
                               rwa [this] at hj2⟩

/-- **C10**: on the splitting path (full rendering ≥ 20000 bytes, alerts
non-empty), a successful `Buildv2` returns with `m.Alerts` still set to
the last candidate sub-slice — a suffix `drop j` of the original alerts,
`j < length` (the last candidate always ends at the last alert), not in
general restored to the original sequence — while every other field of
the message (`rest`) is unchanged. -/
theorem claim10_splitting_mutates_alerts (m : WebhookMessage A R) (data : Bytes)
    (oriLen : Nat) (datas : List Bytes) (m' : WebhookMessage A R)
    (hres : ResolvedTmpl exec marshal r m = .ok (data, oriLen))
    (hge : ¬ oriLen < MAX_MESSAGE_LENGTH)
    (hne : m.alerts ≠ [])
    (hrun : Buildv2Core exec marshal r m = .ok (datas, m')) :
    m'.rest = m.rest ∧ ∃ j, j < m.alerts.length ∧ m'.alerts = m.alerts.drop j := by
  cases hloop : buildv2Loop exec marshal r m.rest m.alerts (List.range' 1 m.alerts.length)
      { lastIndex := 0, lastData := [], sendDatas := [], curAlerts := m.alerts } with
  | error e =>
    rw [show Buildv2Core exec marshal r m = .error e by
      simp only [Buildv2Core]
      rw [hres]
      simp only [if_neg hge, hloop]] at hrun
    cases hrun
  | ok st =>
    rw [Buildv2Core_split exec marshal r m data oriLen st hres hge hloop] at hrun
    simp only [Except.ok.injEq, Prod.mk.injEq] at hrun
    obtain ⟨-, hm'⟩ := hrun
    subst hm'
    have hpos : 0 < m.alerts.length := List.length_pos.mpr hne
    obtain ⟨j, hj, hj2⟩ := buildv2Loop_curAlerts_suffix exec marshal r m.rest m.alerts
      m.alerts.length 1 _ st hpos (by norm_num) hloop
    refine ⟨rfl, j, by omega, ?_⟩
    have h1 : 1 + m.alerts.length - 1 = m.alerts.length := by omega
    rw [h1] at hj2
    simpa using hj2

end LoopInvariant

/-!
## Concrete runs of `Buildv2` under the demonstration instantiation

Weights are bytes of rendered output per alert; `MAX_MESSAGE_LENGTH = 20000`.
-/

/-- Run on two alerts of 12000 bytes each (full rendering 24000 ≥ MAX):
the scan cuts at index 2, emits the best fit for the first alert, and the
loop then ends with `lastData` empty, so the second alert is never emitted
in any batch. -/
theorem demo_run_two : Buildv2Core demoExec demoMarshal demoBuilder ⟨[12000, 12000], ()⟩ =
    .ok ([zeros 12000], ⟨[12000, 12000], ()⟩) := by
  have h1 : buildv2Step demoExec demoMarshal demoBuilder () [12000, 12000]
      { lastIndex := 0, lastData := [], sendDatas := [], curAlerts := [12000, 12000] } 1 =
      .ok { lastIndex := 0, lastData := zeros 12000, sendDatas := [], curAlerts := [12000] } := by
    rw [buildv2Step_bestfit demoExec demoMarshal demoBuilder () [12000, 12000]
      { lastIndex := 0, lastData := [], sendDatas := [], curAlerts := [12000, 12000] } 1
      (zeros 12000) 12000 (by simp [demo_resolvedTmpl]) (by norm_num [MAX_MESSAGE_LENGTH])]
    norm_num
  have h2 : buildv2Step demoExec demoMarshal demoBuilder () [12000, 12000]
      { lastIndex := 0, lastData := zeros 12000, sendDatas := [], curAlerts := [12000] } 2 =
      .ok { lastIndex := 1, lastData := [], sendDatas := [zeros 12000]
            curAlerts := [12000, 12000] } := by
    rw [buildv2Step_cut demoExec demoMarshal demoBuilder () [12000, 12000]
      { lastIndex := 0, lastData := zeros 12000, sendDatas := [], curAlerts := [12000] } 2
      (zeros 24000) 24000 (by simp [demo_resolvedTmpl]) (by norm_num [MAX_MESSAGE_LENGTH])
      (by rw [zeros_length]; norm_num)]
    norm_num
  have hloop : buildv2Loop demoExec demoMarshal demoBuilder () [12000, 12000]
      (List.range' 1 2)
      { lastIndex := 0, lastData := [], sendDatas := [], curAlerts := [12000, 12000] } =
      .ok { lastIndex := 1, lastData := [], sendDatas := [zeros 12000]
            curAlerts := [12000, 12000] } := by
    rw [show List.range' 1 2 = [1, 2] from rfl]
    rw [buildv2Loop_cons demoExec demoMarshal demoBuilder () [12000, 12000] [2] h1]
    rw [buildv2Loop_cons demoExec demoMarshal demoBuilder () [12000, 12000] [] h2]
    exact buildv2Loop_nil demoExec demoMarshal demoBuilder () [12000, 12000] _
  refine Eq.trans (Buildv2Core_split demoExec demoMarshal demoBuilder ⟨[12000, 12000], ()⟩
    (zeros 24000) 24000 _ (by simp [demo_resolvedTmpl]) (by norm_num [MAX_MESSAGE_LENGTH])
    hloop) ?_
  rw [if_neg (by norm_num)]

/-- Run on alerts of 12000, 12000 and 6000 bytes (full rendering 30000):
after the cut at index 2, the trailing range `[12000, 6000]` is remembered
as best fit (18000 bytes), and the final flush then appends the rendering
of the FULL message (30000 bytes) instead of that best fit, because the
flush reads the outer, shadowed `data`. -/
theorem demo_run_three : Buildv2Core demoExec demoMarshal demoBuilder ⟨[12000, 12000, 6000], ()⟩ =
    .ok ([zeros 12000, zeros 30000], ⟨[12000, 6000], ()⟩) := by
  have h1 : buildv2Step demoExec demoMarshal demoBuilder () [12000, 12000, 6000]
      { lastIndex := 0, lastData := [], sendDatas := [], curAlerts := [12000, 12000, 6000] } 1 =
      .ok { lastIndex := 0, lastData := zeros 12000, sendDatas := [], curAlerts := [12000] } := by
    rw [buildv2Step_bestfit demoExec demoMarshal demoBuilder () [12000, 12000, 6000]
      { lastIndex := 0, lastData := [], sendDatas := [], curAlerts := [12000, 12000, 6000] } 1
      (zeros 12000) 12000 (by simp [demo_resolvedTmpl]) (by norm_num [MAX_MESSAGE_LENGTH])]
    norm_num
  have h2 : buildv2Step demoExec demoMarshal demoBuilder () [12000, 12000, 6000]
      { lastIndex := 0, lastData := zeros 12000, sendDatas := [], curAlerts := [12000] } 2 =
      .ok { lastIndex := 1, lastData := [], sendDatas := [zeros 12000]
            curAlerts := [12000, 12000] } := by
    rw [buildv2Step_cut demoExec demoMarshal demoBuilder () [12000, 12000, 6000]
      { lastIndex := 0, lastData := zeros 12000, sendDatas := [], curAlerts := [12000] } 2
      (zeros 24000) 24000 (by simp [demo_resolvedTmpl]) (by norm_num [MAX_MESSAGE_LENGTH])
      (by rw [zeros_length]; norm_num)]
    norm_num
  have h3 : buildv2Step demoExec demoMarshal demoBuilder () [12000, 12000, 6000]
      { lastIndex := 1, lastData := [], sendDatas := [zeros 12000]
        curAlerts := [12000, 12000] } 3 =
      .ok { lastIndex := 1, lastData := zeros 18000, sendDatas := [zeros 12000]
            curAlerts := [12000, 6000] } := by
    rw [buildv2Step_bestfit demoExec demoMarshal demoBuilder () [12000, 12000, 6000]
      { lastIndex := 1, lastData := [], sendDatas := [zeros 12000]
        curAlerts := [12000, 12000] } 3
      (zeros 18000) 18000 (by simp [demo_resolvedTmpl]) (by norm_num [MAX_MESSAGE_LENGTH])]
    norm_num
  have hloop : buildv2Loop demoExec demoMarshal demoBuilder () [12000, 12000, 6000]
      (List.range' 1 3)
      { lastIndex := 0, lastData := [], sendDatas := [], curAlerts := [12000, 12000, 6000] } =
      .ok { lastIndex := 1, lastData := zeros 18000, sendDatas := [zeros 12000]
            curAlerts := [12000, 6000] } := by
    rw [show List.range' 1 3 = [1, 2, 3] from rfl]
    rw [buildv2Loop_cons demoExec demoMarshal demoBuilder () [12000, 12000, 6000] [2, 3] h1]
    rw [buildv2Loop_cons demoExec demoMarshal demoBuilder () [12000, 12000, 6000] [3] h2]
    rw [buildv2Loop_cons demoExec demoMarshal demoBuilder () [12000, 12000, 6000] [] h3]
    exact buildv2Loop_nil demoExec demoMarshal demoBuilder () [12000, 12000, 6000] _
  refine Eq.trans (Buildv2Core_split demoExec demoMarshal demoBuilder ⟨[12000, 12000, 6000], ()⟩
    (zeros 30000) 30000 _ (by simp [demo_resolvedTmpl]) (by norm_num [MAX_MESSAGE_LENGTH])
    hloop) ?_
  rw [if_pos (by rw [zeros_length]; norm_num)]
  norm_num

/-- Run on three alerts of 12000 bytes each (full rendering 36000): after
the cut at index 2 restarts the range at alert 1, the next candidate
examined spans alerts 1-2 (24000 bytes ≥ MAX) and, with no best fit
remembered, is emitted as a single oversized TWO-alert batch. -/
theorem demo_run_threeheavy :
    Buildv2Core demoExec demoMarshal demoBuilder ⟨[12000, 12000, 12000], ()⟩ =
    .ok ([zeros 12000, zeros 24000], ⟨[12000, 12000], ()⟩) := by
  have h1 : buildv2Step demoExec demoMarshal demoBuilder () [12000, 12000, 12000]
      { lastIndex := 0, lastData := [], sendDatas := [], curAlerts := [12000, 12000, 12000] } 1 =
      .ok { lastIndex := 0, lastData := zeros 12000, sendDatas := [], curAlerts := [12000] } := by
    rw [buildv2Step_bestfit demoExec demoMarshal demoBuilder () [12000, 12000, 12000]
      { lastIndex := 0, lastData := [], sendDatas := [], curAlerts := [12000, 12000, 12000] } 1
      (zeros 12000) 12000 (by simp [demo_resolvedTmpl]) (by norm_num [MAX_MESSAGE_LENGTH])]
    norm_num
  have h2 : buildv2Step demoExec demoMarshal demoBuilder () [12000, 12000, 12000]
      { lastIndex := 0, lastData := zeros 12000, sendDatas := [], curAlerts := [12000] } 2 =
      .ok { lastIndex := 1, lastData := [], sendDatas := [zeros 12000]
            curAlerts := [12000, 12000] } := by
    rw [buildv2Step_cut demoExec demoMarshal demoBuilder () [12000, 12000, 12000]
      { lastIndex := 0, lastData := zeros 12000, sendDatas := [], curAlerts := [12000] } 2
      (zeros 24000) 24000 (by simp [demo_resolvedTmpl]) (by norm_num [MAX_MESSAGE_LENGTH])
      (by rw [zeros_length]; norm_num)]
    norm_num
  have h3 : buildv2Step demoExec demoMarshal demoBuilder () [12000, 12000, 12000]
      { lastIndex := 1, lastData := [], sendDatas := [zeros 12000]
        curAlerts := [12000, 12000] } 3 =
      .ok { lastIndex := 3, lastData := [], sendDatas := [zeros 12000, zeros 24000]
            curAlerts := [12000, 12000] } := by
    rw [buildv2Step_oversize demoExec demoMarshal demoBuilder () [12000, 12000, 12000]
      { lastIndex := 1, lastData := [], sendDatas := [zeros 12000]
        curAlerts := [12000, 12000] } 3
      (zeros 24000) 24000 (by simp [demo_resolvedTmpl]) (by norm_num [MAX_MESSAGE_LENGTH]) rfl]
    norm_num
  have hloop : buildv2Loop demoExec demoMarshal demoBuilder () [12000, 12000, 12000]
      (List.range' 1 3)
      { lastIndex := 0, lastData := [], sendDatas := [], curAlerts := [12000, 12000, 12000] } =
      .ok { lastIndex := 3, lastData := [], sendDatas := [zeros 12000, zeros 24000]
            curAlerts := [12000, 12000] } := by
    rw [show List.range' 1 3 = [1, 2, 3] from rfl]
    rw [buildv2Loop_cons demoExec demoMarshal demoBuilder () [12000, 12000, 12000] [2, 3] h1]
    rw [buildv2Loop_cons demoExec demoMarshal demoBuilder () [12000, 12000, 12000] [3] h2]
    rw [buildv2Loop_cons demoExec demoMarshal demoBuilder () [12000, 12000, 12000] [] h3]
    exact buildv2Loop_nil demoExec demoMarshal demoBuilder () [12000, 12000, 12000] _
  refine Eq.trans (Buildv2Core_split demoExec demoMarshal demoBuilder
    ⟨[12000, 12000, 12000], ()⟩ (zeros 36000) 36000 _
    (by simp [demo_resolvedTmpl]) (by norm_num [MAX_MESSAGE_LENGTH]) hloop) ?_
  rw [if_neg (by norm_num)]

/-- Run on a single alert of 25000 bytes (≥ MAX): the single candidate is
oversized with no best fit remembered; it is emitted alone and the loop
terminates after one iteration. -/
theorem demo_run_single : Buildv2Core demoExec demoMarshal demoBuilder ⟨[25000], ()⟩ =
    .ok ([zeros 25000], ⟨[25000], ()⟩) := by
  have h1 : buildv2Step demoExec demoMarshal demoBuilder () [25000]
      { lastIndex := 0, lastData := [], sendDatas := [], curAlerts := [25000] } 1 =
      .ok { lastIndex := 1, lastData := [], sendDatas := [zeros 25000]
            curAlerts := [25000] } := by
    rw [buildv2Step_oversize demoExec demoMarshal demoBuilder () [25000]
      { lastIndex := 0, lastData := [], sendDatas := [], curAlerts := [25000] } 1
      (zeros 25000) 25000 (by simp [demo_resolvedTmpl]) (by norm_num [MAX_MESSAGE_LENGTH]) rfl]
    norm_num
  have hloop : buildv2Loop demoExec demoMarshal demoBuilder () [25000] (List.range' 1 1)
      { lastIndex := 0, lastData := [], sendDatas := [], curAlerts := [25000] } =
      .ok { lastIndex := 1, lastData := [], sendDatas := [zeros 25000]
            curAlerts := [25000] } := by
    rw [show List.range' 1 1 = [1] from rfl]
    rw [buildv2Loop_cons demoExec demoMarshal demoBuilder () [25000] [] h1]
    exact buildv2Loop_nil demoExec demoMarshal demoBuilder () [25000] _
  refine Eq.trans (Buildv2Core_split demoExec demoMarshal demoBuilder ⟨[25000], ()⟩
    (zeros 25000) 25000 _ (by simp [demo_resolvedTmpl]) (by norm_num [MAX_MESSAGE_LENGTH])
    hloop) ?_
  rw [if_neg (by norm_num)]

/-!
## The claims

Each claim of the specification is settled by exactly one theorem below.
-/

/-- **C1** (refuting evaluation at the failing input).  The claim states
that for every message with non-empty alerts on which `Buildv2` succeeds,
the batches render pairwise-disjoint contiguous ranges whose concatenation
reproduces the original alerts exactly once.  The code violates this: for
two alerts rendering to 12000 bytes each (full rendering 24000 ≥ MAX),
`Buildv2` returns the single batch rendering only the first alert
(`zeros 12000`), which is not the rendering of the full two-alert sequence
(`zeros 24000`), so the second alert is dropped from every batch. -/
theorem claim1_coverage_violated :
    Buildv2 demoExec demoMarshal demoBuilder ⟨[12000, 12000], ()⟩ = .ok [zeros 12000] ∧
    ResolvedTmpl demoExec demoMarshal demoBuilder ⟨[12000], ()⟩ = .ok (zeros 12000, 12000) ∧
    ResolvedTmpl demoExec demoMarshal demoBuilder ⟨[12000, 12000], ()⟩ =
      .ok (zeros 24000, 24000) ∧
    zeros 12000 ≠ zeros 24000 := by
  refine ⟨Buildv2_of_core demoExec demoMarshal demoBuilder demo_run_two, ?_, ?_, ?_⟩
  · simp [demo_resolvedTmpl]
  · simp [demo_resolvedTmpl]
  · simp [zeros_inj]

/-- **C2** (refuting evaluation at the failing input).  The claim states
that when the scan ends with a remembered, unemitted best fit, the final
flushed batch is that best-fit rendering.  The code instead appends the
rendering of the FULL original message (the outer `data` of line 94,
shadowed by the loop-local `data` of line 108): for alerts of weights
12000, 12000, 6000, the trailing best fit is the rendering of
`[12000, 6000]` (`zeros 18000`), yet the flushed final batch is the full
30000-byte rendering. -/
theorem claim2_flush_appends_full_rendering :
    Buildv2 demoExec demoMarshal demoBuilder ⟨[12000, 12000, 6000], ()⟩ =
      .ok [zeros 12000, zeros 30000] ∧
    ResolvedTmpl demoExec demoMarshal demoBuilder ⟨[12000, 6000], ()⟩ =
      .ok (zeros 18000, 18000) ∧
    ResolvedTmpl demoExec demoMarshal demoBuilder ⟨[12000, 12000, 6000], ()⟩ =
      .ok (zeros 30000, 30000) ∧
    zeros 30000 ≠ zeros 18000 := by
  refine ⟨Buildv2_of_core demoExec demoMarshal demoBuilder demo_run_three, ?_, ?_, ?_⟩
  · simp [demo_resolvedTmpl]
  · simp [demo_resolvedTmpl]
  · simp [zeros_inj]

/-- **C4** (refuting evaluation at the failing input, plus the surviving
single-alert scenario).  The claim states that every emitted batch of
length ≥ 20000 renders exactly one alert.  For three alerts of 12000
bytes each, the second emitted batch is `zeros 24000` (≥ MAX) and is the
rendering of the TWO-alert range `[12000, 12000]`, not of any single
alert (each single alert renders to `zeros 12000`): after the cut at
index 2 restarts the range one alert back, the single-alert candidate is
never re-examined.  The claim's concrete single-alert scenario does hold:
one alert of 25000 bytes yields exactly one oversized batch. -/
theorem claim4_oversized_batch_two_alerts :
    Buildv2 demoExec demoMarshal demoBuilder ⟨[12000, 12000, 12000], ()⟩ =
      .ok [zeros 12000, zeros 24000] ∧
    MAX_MESSAGE_LENGTH ≤ (zeros 24000).length ∧
    ResolvedTmpl demoExec demoMarshal demoBuilder ⟨[12000, 12000], ()⟩ =
      .ok (zeros 24000, 24000) ∧
    ResolvedTmpl demoExec demoMarshal demoBuilder ⟨[12000], ()⟩ =
      .ok (zeros 12000, 12000) ∧
    zeros 24000 ≠ zeros 12000 ∧
    Buildv2 demoExec demoMarshal demoBuilder ⟨[25000], ()⟩ = .ok [zeros 25000] := by
  refine ⟨Buildv2_of_core demoExec demoMarshal demoBuilder demo_run_threeheavy,
    ?_, ?_, ?_, ?_, Buildv2_of_core demoExec demoMarshal demoBuilder demo_run_single⟩
  · rw [zeros_length]; norm_num [MAX_MESSAGE_LENGTH]
  · simp [demo_resolvedTmpl]
  · simp [demo_resolvedTmpl]
  · simp [zeros_inj]

/-- `ResolvedTmpl` performs exactly `Build` followed by `json.Marshal`
(the Go source duplicates the construction of `Build` verbatim inside
`ResolvedTmpl`). -/
theorem ResolvedTmpl_via_Build {A R : Type}
    (exec : String → WebhookMessage A R → Except String String)
    (marshal : DingTalkNotification → Except String Bytes)
    (r : DingNotificationBuilder) (m : WebhookMessage A R) :
    ResolvedTmpl exec marshal r m =
      match Build exec r m with
      | .error e => .error e
      | .ok notification =>
        match marshal notification with
        | .error e => .error ("error encoding DingTalk request: " ++ e)
        | .ok body => .ok (body, body.length) := by
  simp only [ResolvedTmpl, Build]
  cases hT : renderTitle exec r m with
  | error e => rfl
  | ok title =>
    cases hX : renderText exec r m with
    | error e => rfl
    | ok content =>
      cases hMen : r.target.mention with
      | some mention => rfl
      | none => rfl

/-- **C3**: when the full rendering is strictly under `MAX_MESSAGE_LENGTH`
(20000 bytes), `Buildv2` returns exactly one batch, and that batch is
byte-identical to the `json.Marshal` serialization of the notification
the non-batched `Build` produces; no splitting occurs. -/
theorem claim3_no_split {A R : Type}
    (exec : String → WebhookMessage A R → Except String String)
    (marshal : DingTalkNotification → Except String Bytes)
    (r : DingNotificationBuilder) (m : WebhookMessage A R)
    (data : Bytes) (oriLen : Nat)
    (hres : ResolvedTmpl exec marshal r m = .ok (data, oriLen))
    (hlt : oriLen < MAX_MESSAGE_LENGTH) :
    Buildv2 exec marshal r m = .ok [data] ∧
    ∃ notification, Build exec r m = .ok notification ∧
      marshal notification = .ok data := by
  refine ⟨Buildv2_of_core exec marshal r
    (Buildv2Core_short exec marshal r m data oriLen hres hlt), ?_⟩
  rw [ResolvedTmpl_via_Build] at hres
  cases hB : Build exec r m with
  | error e => rw [hB] at hres; simp at hres
  | ok notification =>
    rw [hB] at hres
    simp only [] at hres
    cases hM : marshal notification with
    | error e => rw [hM] at hres; simp at hres
    | ok body =>
      rw [hM] at hres
      simp only [Except.ok.injEq, Prod.mk.injEq] at hres
      exact ⟨notification, rfl, by rw [hM, hres.1]⟩

/-- Witness for C3 at a concrete input: one alert of weight 5; the full
rendering is 5 bytes < 20000, the sole batch is `zeros 5`, and it is the
marshalling of the `Build` notification. -/
theorem claim3_no_split_witness :
    Buildv2 demoExec demoMarshal demoBuilder ⟨[5], ()⟩ = .ok [zeros 5] ∧
    ∃ notification, Build demoExec demoBuilder ⟨[5], ()⟩ = .ok notification ∧
      demoMarshal notification = .ok (zeros 5) :=
  claim3_no_split demoExec demoMarshal demoBuilder ⟨[5], ()⟩ (zeros 5) 5
    (by simp [demo_resolvedTmpl]) (by norm_num [MAX_MESSAGE_LENGTH])

/-- Witness for C10: for alerts of weights 12000, 12000, 6000 the split
path is taken, and `Buildv2` returns with `m.Alerts = [12000, 6000]` — the
final candidate, the suffix `drop 1` of the original — and `rest`
untouched. -/
theorem claim10_witness :
    ((() : Unit) = ()) ∧
    ∃ j, j < 3 ∧ [12000, 6000] = List.drop j [12000, 12000, 6000] :=
  claim10_splitting_mutates_alerts demoExec demoMarshal demoBuilder
    ⟨[12000, 12000, 6000], ()⟩ (zeros 30000) 30000 [zeros 12000, zeros 30000]
    ⟨[12000, 6000], ()⟩ (by simp [demo_resolvedTmpl]) (by norm_num [MAX_MESSAGE_LENGTH])
    (by simp) demo_run_three

/-- Membership in `url.Values.Set`: the new key holds exactly the new
value; every other key keeps exactly its previous values. -/
theorem valuesSet_mem (qs : List (String × String)) (k v k' v' : String) :
    (k', v') ∈ valuesSet qs k v ↔ (((k', v') ∈ qs ∧ k' ≠ k) ∨ (k' = k ∧ v' = v)) := by
  simp only [valuesSet, List.mem_append, List.mem_filter, List.mem_singleton, Prod.mk.injEq]
  constructor
  · rintro (⟨h1, h2⟩ | ⟨h1, h2⟩)
    · exact Or.inl ⟨h1, by simpa using h2⟩
    · exact Or.inr ⟨h1, h2⟩
  · rintro (⟨h1, h2⟩ | ⟨h1, h2⟩)
    · exact Or.inl ⟨h1, by simpa using h2⟩
    · exact Or.inr ⟨h1, h2⟩

/-- **C5**: with a non-empty secret, the request that `SendNotification`
posts carries query parameter `timestamp` equal to the injected timestamp
`t` and `sign` equal to `base64(HMAC-SHA256(key = secret,
message = t ++ "\n" ++ secret))`, each as the sole value of its key
(prior values replaced); the rest of the URL is untouched. -/
theorem claim5_signed_request (hmacSha256 : String → String → Bytes)
    (base64Encode : Bytes → String)
    (marshal : DingTalkNotification → Except String Bytes)
    (notification : DingTalkNotification) (target : Target) (timestamp : String)
    (body : Bytes)
    (hsec : target.secret ≠ "")
    (hmar : marshal notification = .ok body) :
    ∃ req, sendNotificationRequest hmacSha256 base64Encode marshal notification
        target timestamp = .ok req ∧
      req.method = "POST" ∧
      req.contentType = "application/json" ∧
      req.body = body ∧
      req.url.base = target.url.base ∧
      (∀ v, ("timestamp", v) ∈ req.url.query ↔ v = timestamp) ∧
      (∀ v, ("sign", v) ∈ req.url.query ↔
        v = base64Encode (hmacSha256 target.secret
              (timestamp ++ "\n" ++ target.secret))) := by
  refine ⟨{ method := "POST"
            url := signTargetURL hmacSha256 base64Encode target timestamp
            contentType := "application/json", body := body }, ?_, rfl, rfl, rfl, ?_, ?_, ?_⟩
  · simp only [sendNotificationRequest]
    rw [hmar]
  · simp only [signTargetURL, if_pos hsec]
  · intro v
    simp only [signTargetURL, if_pos hsec]
    rw [valuesSet_mem, valuesSet_mem]
    simp [show ("timestamp" : String) ≠ "sign" by decide]
  · intro v
    simp only [signTargetURL, if_pos hsec]
    rw [valuesSet_mem, valuesSet_mem]
    simp

/-- Demonstration stand-ins for the external crypto primitives, used only
to instantiate signing theorems at concrete inputs. -/
def demoHmac (key msg : String) : Bytes :=
  (key ++ msg).data.map Char.toNat

def demoBase64 (b : Bytes) : String :=
  String.intercalate "-" (b.map toString)

def demoSignedTarget : Target :=
  { url := { base := "https://example.invalid/robot"
             query := [("timestamp", "stale"), ("sign", "stale"), ("x", "1")] }
    secret := "abc", mention := none }

/-- Witness for C5 at the spec's concrete instance: secret `"abc"`,
timestamp `"1000"`; the posted URL carries `timestamp = "1000"` and
`sign = base64(HMAC-SHA256(key = "abc", data = "1000\nabc"))`, replacing
the stale prior values. -/
theorem claim5_witness :
    ∃ req, sendNotificationRequest demoHmac demoBase64 demoMarshal
        { messageType := "markdown", markdown := some { title := "t", text := "x" }
          atBlock := none } demoSignedTarget "1000" = .ok req ∧
      req.method = "POST" ∧
      req.contentType = "application/json" ∧
      req.body = zeros 1 ∧
      req.url.base = demoSignedTarget.url.base ∧
      (∀ v, ("timestamp", v) ∈ req.url.query ↔ v = "1000") ∧
      (∀ v, ("sign", v) ∈ req.url.query ↔
        v = demoBase64 (demoHmac "abc" ("1000" ++ "\n" ++ "abc"))) :=
  claim5_signed_request demoHmac demoBase64 demoMarshal
    { messageType := "markdown", markdown := some { title := "t", text := "x" }
      atBlock := none } demoSignedTarget "1000" (zeros 1)
    (by decide) (by rfl)

/-- **C6**: with an empty secret, signing is the identity — the URL that
`SendNotification` posts to is the configured target URL unchanged, so no
`timestamp` or `sign` query parameter is added. -/
theorem claim6_empty_secret_identity (hmacSha256 : String → String → Bytes)
    (base64Encode : Bytes → String)
    (marshal : DingTalkNotification → Except String Bytes)
    (notification : DingTalkNotification) (target : Target) (timestamp : String)
    (body : Bytes)
    (hsec : target.secret = "")
    (hmar : marshal notification = .ok body) :
    signTargetURL hmacSha256 base64Encode target timestamp = target.url ∧
    sendNotificationRequest hmacSha256 base64Encode marshal notification
        target timestamp =
      .ok { method := "POST", url := target.url
            contentType := "application/json", body := body } := by
  have hurl : signTargetURL hmacSha256 base64Encode target timestamp = target.url := by
    simp [signTargetURL, hsec]
  refine ⟨hurl, ?_⟩
  simp only [sendNotificationRequest]
  rw [hmar, hurl]

/-- Witness for C6: a target with empty secret and a query already
present; the request URL is exactly the configured URL. -/
theorem claim6_witness :
    signTargetURL demoHmac demoBase64 demoTarget "1000" = demoTarget.url ∧
    sendNotificationRequest demoHmac demoBase64 demoMarshal
        { messageType := "markdown", markdown := some { title := "t", text := "x" }
          atBlock := none } demoTarget "1000" =
      .ok { method := "POST", url := demoTarget.url
            contentType := "application/json", body := zeros 1 } :=
  claim6_empty_secret_identity demoHmac demoBase64 demoMarshal
    { messageType := "markdown", markdown := some { title := "t", text := "x" }
      atBlock := none } demoTarget "1000" (zeros 1) rfl (by rfl)

/-- **C7**: both `SendNotification` and `SendNotificationV2` process a
received HTTP response through the same logic: the deferred
drain-and-close runs on every such path; any status other than 200 yields
the error `unacceptable response code <code>` (whatever the body holds)
and no decoded response; a 200 status yields the decoded
`DingTalkNotificationResponse`, or the wrapped decode error if the body
does not decode. -/
theorem claim7_response_validation {β : Type}
    (hmacSha256 : String → String → Bytes) (base64Encode : Bytes → String)
    (marshal : DingTalkNotification → Except String Bytes)
    (decode : β → Except String DingTalkNotificationResponse)
    (doRequest : HTTPRequest → Except String (HTTPResponse β))
    (notification : DingTalkNotification) (target : Target) (timestamp : String)
    (req : HTTPRequest) (resp : HTTPResponse β)
    (bodyV2 : Bytes) (target₂ : Target) (resp₂ : HTTPResponse β)
    (hreq : sendNotificationRequest hmacSha256 base64Encode marshal notification
      target timestamp = .ok req)
    (hdo : doRequest req = .ok resp)
    (hdo₂ : doRequest (sendNotificationV2Request bodyV2 target₂) = .ok resp₂) :
    SendNotification hmacSha256 base64Encode marshal decode doRequest notification
        target timestamp = handleDingResponse decode resp ∧
    SendNotificationV2 decode doRequest bodyV2 target₂ = handleDingResponse decode resp₂ ∧
    ∀ rsp : HTTPResponse β,
      (handleDingResponse decode rsp).2 = [BodyEffect.drain, BodyEffect.close] ∧
      (rsp.statusCode ≠ 200 →
        (handleDingResponse decode rsp).1 =
          .error ("unacceptable response code " ++ toString rsp.statusCode)) ∧
      (rsp.statusCode = 200 → ∀ e, decode rsp.body = .error e →
        (handleDingResponse decode rsp).1 =
          .error ("error decoding response from DingTalk: " ++ e)) ∧
      (rsp.statusCode = 200 → ∀ rr, decode rsp.body = .ok rr →
        (handleDingResponse decode rsp).1 = .ok rr) := by
  refine ⟨?_, ?_, ?_⟩
  · simp only [SendNotification]
    rw [hreq]
    simp only []
    rw [hdo]
  · simp only [SendNotificationV2]
    rw [hdo₂]
  · intro rsp
    refine ⟨?_, ?_, ?_, ?_⟩
    · by_cases h200 : rsp.statusCode ≠ 200
      · simp [handleDingResponse, if_pos h200]
      · simp only [handleDingResponse, if_neg h200]
        cases hdec : decode rsp.body <;> simp
    · intro h200
      simp [handleDingResponse, if_pos h200]
    · intro h200 e hdec
      simp only [handleDingResponse, h200]
      simp [hdec]
    · intro h200 rr hdec
      simp only [handleDingResponse, h200]
      simp [hdec]

/-- Demonstration transport: every request elicits an HTTP 500 whose body
would even decode fine — the status error must win regardless. -/
def demoDoRequest500 : HTTPRequest → Except String (HTTPResponse Nat) :=
  fun _ => .ok { statusCode := 500, body := 7 }

/-- Demonstration body decoder for `β := Nat`. -/
def demoDecode : Nat → Except String DingTalkNotificationResponse :=
  fun b => if b = 7 then .ok { errcode := 0, errmsg := "ok" } else .error "bad json"

/-- Witness for C7: a delivery hitting HTTP 500 fails with the explicit
status-code error on both transports, with the body still drained and
closed; the same handler on a 200 response decodes the body. -/
theorem claim7_witness :
    SendNotification demoHmac demoBase64 demoMarshal demoDecode demoDoRequest500
        { messageType := "markdown", markdown := some { title := "t", text := "x" }
          atBlock := none } demoTarget "1000" =
      handleDingResponse demoDecode { statusCode := 500, body := 7 } ∧
    SendNotificationV2 demoDecode demoDoRequest500 (zeros 1) demoTarget =
      handleDingResponse demoDecode { statusCode := 500, body := 7 } ∧
    ∀ rsp : HTTPResponse Nat,
      (handleDingResponse demoDecode rsp).2 = [BodyEffect.drain, BodyEffect.close] ∧
      (rsp.statusCode ≠ 200 →
        (handleDingResponse demoDecode rsp).1 =
          .error ("unacceptable response code " ++ toString rsp.statusCode)) ∧
      (rsp.statusCode = 200 → ∀ e, demoDecode rsp.body = .error e →
        (handleDingResponse demoDecode rsp).1 =
          .error ("error decoding response from DingTalk: " ++ e)) ∧
      (rsp.statusCode = 200 → ∀ rr, demoDecode rsp.body = .ok rr →
        (handleDingResponse demoDecode rsp).1 = .ok rr) :=
  claim7_response_validation demoHmac demoBase64 demoMarshal demoDecode demoDoRequest500
    { messageType := "markdown", markdown := some { title := "t", text := "x" }
      atBlock := none } demoTarget "1000"
    { method := "POST", url := demoTarget.url
      contentType := "application/json", body := zeros 1 }
    { statusCode := 500, body := 7 } (zeros 1) demoTarget
    { statusCode := 500, body := 7 } (by rfl) (by rfl) (by rfl)

/-- **C8**: when both the resolved title and text templates render, `Build`
returns a notification with `msgtype` exactly `"markdown"`, the rendered
title and text in the markdown block, and an `at` block present exactly
when the target has a mention directive, carrying its `all` flag and
mobile set; if either render fails, `Build` propagates that error with no
notification. -/
theorem claim8_build_markdown {A R : Type}
    (exec : String → WebhookMessage A R → Except String String)
    (r : DingNotificationBuilder) (m : WebhookMessage A R) :
    (∀ title content, renderTitle exec r m = .ok title →
      renderText exec r m = .ok content →
      Build exec r m = .ok
        { messageType := "markdown"
          markdown := some { title := title, text := content }
          atBlock := r.target.mention.map fun mt =>
            { isAtAll := mt.all, atMobiles := mt.mobiles } }) ∧
    (∀ e, renderTitle exec r m = .error e → Build exec r m = .error e) ∧
    (∀ title e, renderTitle exec r m = .ok title →
      renderText exec r m = .error e → Build exec r m = .error e) := by
  refine ⟨?_, ?_, ?_⟩
  · intro title content hT hX
    simp only [Build]
    rw [hT, hX]
    cases hMen : r.target.mention with
    | some mention => simp
    | none => simp
  · intro e hT
    simp only [Build]
    rw [hT]
  · intro title e hT hX
    simp only [Build]
    rw [hT, hX]

/-- A target and builder carrying a mention directive, to exercise the
`at` block. -/
def demoMentionBuilder : DingNotificationBuilder :=
  { titleTpl := "t", textTpl := "x"
    target := { url := { base := "https://example.invalid/robot", query := [] }
                secret := "", mention := some { all := true, mobiles := ["13800138000"] } } }

/-- Witness for C8: under the demonstration engine, a one-alert message
builds into a markdown notification carrying the rendered title and text
and the configured mention. -/
theorem claim8_witness :
    Build demoExec demoMentionBuilder ⟨[5], ()⟩ = .ok
      { messageType := "markdown"
        markdown := some { title := demoText 5, text := demoText 5 }
        atBlock := some { isAtAll := true, atMobiles := ["13800138000"] } } :=
  (claim8_build_markdown demoExec demoMentionBuilder ⟨[5], ()⟩).1
    (demoText 5) (demoText 5) (by rfl) (by rfl)

/-- **C9**: `SendNotificationV2` — the transport used for `Buildv2`'s
batched bodies — posts to `target.URL` exactly as configured, adds no
`timestamp` or `sign` query parameters even when the secret is non-empty,
and its behaviour is entirely independent of the secret; only
`SendNotification` signs. -/
theorem claim9_v2_never_signs {β : Type}
    (decode : β → Except String DingTalkNotificationResponse)
    (doRequest : HTTPRequest → Except String (HTTPResponse β))
    (body : Bytes) (target : Target)
    (hsec : target.secret ≠ "") :
    (sendNotificationV2Request body target).url = target.url ∧
    (∀ s mt, sendNotificationV2Request body
        { url := target.url, secret := s, mention := mt } =
      sendNotificationV2Request body target) ∧
    SendNotificationV2 decode doRequest body target =
      SendNotificationV2 decode doRequest body
        { url := target.url, secret := "", mention := target.mention } :=
  ⟨rfl, fun _ _ => rfl, rfl⟩

/-- Witness for C9: a target with the non-empty secret `"abc"`; the V2
request URL is the configured URL and the V2 exchange ignores the secret. -/
theorem claim9_witness :
    (sendNotificationV2Request (zeros 1) demoSignedTarget).url = demoSignedTarget.url ∧
    (∀ s mt, sendNotificationV2Request (zeros 1)
        { url := demoSignedTarget.url, secret := s, mention := mt } =
      sendNotificationV2Request (zeros 1) demoSignedTarget) ∧
    SendNotificationV2 demoDecode demoDoRequest500 (zeros 1) demoSignedTarget =
      SendNotificationV2 demoDecode demoDoRequest500 (zeros 1)
        { url := demoSignedTarget.url, secret := ""
          mention := demoSignedTarget.mention } :=
  claim9_v2_never_signs demoDecode demoDoRequest500 (zeros 1) demoSignedTarget (by decide)
